import Mathlib

/-!
Verification development for the gravity-ui/page-constructor-builder static-site
generator.  The TypeScript sources are shallowly embedded: pure string-building
code (TemplateRenderer, SSRRenderer fallback) is translated to Lean string
functions; effectful steps (filesystem access, webpack runs, the dynamically
loaded server-bundle render function, the YAML parser and the external content
transformer) are modelled as explicit outcome parameters of type
`Except String _` collected in environment records, since their internals are
external collaborators of the repository.  JavaScript string semantics
(truthiness of empty strings, `split`/`pop`/`join`/`startsWith`,
`toLowerCase`) are reproduced by dedicated helpers over `List Char`.
-/

namespace PCB

/-- JS `String.prototype.startsWith`. -/
def jsStartsWith (s pre : String) : Bool :=
  pre.data.isPrefixOf s.data

/-- ASCII lowering of one character, the effect of JS `toLowerCase` on the
path characters that matter here. -/
def charLower (c : Char) : Char :=
  if 65 ≤ c.toNat ∧ c.toNat ≤ 90 then Char.ofNat (c.toNat + 32) else c

/-- JS `String.prototype.split` with a one-character separator. -/
def splitOnChar (sep : Char) : List Char → List (List Char)
  | [] => [[]]
  | c :: cs =>
    let r := splitOnChar sep cs
    if c = sep then [] :: r
    else
      match r with
      | [] => [[c]]
      | h :: t => (c :: h) :: t

/-- JS `Array.prototype.join`. -/
def joinStrings (sep : String) : List String → String
  | [] => ""
  | [s] => s
  | s :: rest => s ++ sep ++ joinStrings sep rest

/-- JS `a || dflt` for an optional string `a` (empty string is falsy). -/
def jsOrStr (value : Option String) (dflt : String) : String :=
  match value with
  | some s => if s.data.isEmpty then dflt else s
  | none => dflt

/-- JS truthiness of an optional string field (`if (x.y)`). -/
def jsTruthy (value : Option String) : Bool :=
  match value with
  | some s => !s.data.isEmpty
  | none => false

/-- `m` occurs as a contiguous substring of `s`. -/
abbrev strInfix (m s : String) : Prop := m.data <:+: s.data

theorem strInfix_of_eq {m s : String} (a b : String) (h : s = a ++ m ++ b) :
    strInfix m s := by
  subst h
  exact ⟨a.data, b.data, by rw [String.data_append, String.data_append]⟩

theorem strInfix_trans {m s t : String} (h1 : strInfix m s) (h2 : strInfix s t) :
    strInfix m t :=
  List.IsInfix.trans h1 h2

/- ## Data model (src/types, reconstructed from use sites) -/

/-- Optional inline navigation / navigation file payload; opaque to the
builder, carried through unchanged. -/
abbrev NavigationData := String

/-- `meta.sharing` of a page description. -/
structure SharingMeta where
  title : Option String
  description : Option String
  image : Option String
deriving DecidableEq

/-- `meta` block of a page description. -/
structure PageMeta where
  title : Option String
  description : Option String
  sharing : Option SharingMeta
  keywords : Option (List String)
deriving DecidableEq

/-- Parsed page description (`PageConfig`).  Blocks are opaque payloads. -/
structure PageConfig where
  blocks : List String
  meta : Option PageMeta
  css : Option (List String)
  js : Option (List String)
  navigation : Option NavigationData
deriving DecidableEq

/-- Analytics configuration: the `sendEvents` handler is carried as its
source text (the builder embeds `fn.toString()`), `autoEvents` as a flag. -/
structure AnalyticsContextProps where
  sendEvents : Option String
  autoEvents : Option Bool
deriving DecidableEq

/-- Build configuration snapshot (`BuilderConfig`), restricted to the fields
the embedded functions read. -/
structure BuilderConfig where
  input : String
  output : String
  theme : Option String
  baseUrl : Option String
  favicon : Option String
deriving DecidableEq

/-- Build accumulator (`BuildResult`). -/
structure BuildResult where
  pagesBuilt : Nat
  buildTime : Nat
  errors : List String
  warnings : List String
deriving DecidableEq

/-- The render function exported by the loaded server bundle
(`serverModule.renderPage`); a thrown exception is `Except.error msg`. -/
def RenderFn : Type :=
  PageConfig → String → Option NavigationData → Option AnalyticsContextProps →
    Except String String

/-- External serializers used inside the generated document
(`JSON.stringify(pageConfig, null, 2)` and `JSON.stringify(navigation, null, 2)`). -/
structure Collab where
  stringifyPage : PageConfig → String
  stringifyNav : Option NavigationData → String

/- ## TemplateRenderer (src/unnamed/part_001) -/

/-- `TemplateRenderer.escapeHtml`, one character: the five-entry replacement
map applied by `text.replace(/[&<>"]/g, ...)`. -/
def escapeCharL (c : Char) : List Char :=
  if c = '&' then "&amp;".data
  else if c = '<' then "&lt;".data
  else if c = '>' then "&gt;".data
  else if c = Char.ofNat 34 then "&quot;".data
  else if c = Char.ofNat 39 then "&#39;".data
  else [c]

/-- `TemplateRenderer.escapeHtml` (part_001 lines 396-405). -/
def escapeHtml (text : String) : String :=
  String.mk (text.data.flatMap escapeCharL)

/-- `TemplateRenderer.generateAnalyticsCode` (part_001 lines 373-389). -/
def generateAnalyticsCode (analyticsConfig : Option AnalyticsContextProps) : String :=
  match analyticsConfig with
  | none => "undefined"
  | some ac =>
    let parts : List String :=
      (match ac.sendEvents with
        | some fnText => ["sendEvents: " ++ fnText]
        | none => []) ++
      (match ac.autoEvents with
        | some b => ["autoEvents: " ++ (if b then "true" else "false")]
        | none => [])
    "\x7b " ++ joinStrings ", " parts ++ " \x7d"

/-- `TemplateRenderer.generateMetaTags` (part_001 lines 258-307).  Note that
the keywords content is interpolated without `escapeHtml`. -/
def generateMetaTags (pageConfig : PageConfig) : String :=
  match pageConfig.meta with
  | none => ""
  | some meta =>
    let sharingTitle := meta.sharing.bind SharingMeta.title
    let sharingDescription := meta.sharing.bind SharingMeta.description
    let sharingImage := meta.sharing.bind SharingMeta.image
    let ogTags : List String :=
      (if jsTruthy sharingTitle then
        ["<meta property=\"og:title\" content=\"" ++
          escapeHtml (sharingTitle.getD "") ++ "\">"]
      else []) ++
      (if jsTruthy sharingDescription then
        ["<meta property=\"og:description\" content=\"" ++
          escapeHtml (sharingDescription.getD "") ++ "\">"]
      else []) ++
      (if jsTruthy sharingImage then
        ["<meta property=\"og:image\" content=\"" ++
          escapeHtml (sharingImage.getD "") ++ "\">"]
      else [])
    let twitterTags : List String :=
      if jsTruthy sharingTitle || jsTruthy sharingDescription then
        ["<meta name=\"twitter:card\" content=\"summary_large_image\">"] ++
        (if jsTruthy sharingTitle then
          ["<meta name=\"twitter:title\" content=\"" ++
            escapeHtml (sharingTitle.getD "") ++ "\">"]
        else []) ++
        (if jsTruthy sharingDescription then
          ["<meta name=\"twitter:description\" content=\"" ++
            escapeHtml (sharingDescription.getD "") ++ "\">"]
        else []) ++
        (if jsTruthy sharingImage then
          ["<meta name=\"twitter:image\" content=\"" ++
            escapeHtml (sharingImage.getD "") ++ "\">"]
        else [])
      else []
    let keywordTags : List String :=
      match meta.keywords with
      | some kws =>
        if kws.length > 0 then
          ["<meta name=\"keywords\" content=\"" ++ joinStrings ", " kws ++ "\">"]
        else []
      | none => []
    joinStrings "\n    " (ogTags ++ twitterTags ++ keywordTags)

/-- `faviconPath.toLowerCase().split(".").pop()` (part_001 line 327). -/
def faviconExtension (faviconPath : String) : String :=
  String.mk ((splitOnChar (Char.ofNat 46) (faviconPath.data.map charLower)).getLast?.getD [])

/-- The `switch (extension)` MIME table (part_001 lines 330-348). -/
def faviconMimeType (extension : String) : String :=
  if extension = "png" then "image/png"
  else if extension = "svg" then "image/svg+xml"
  else if extension = "jpg" then "image/jpeg"
  else if extension = "jpeg" then "image/jpeg"
  else if extension = "gif" then "image/gif"
  else "image/x-icon"

/-- Basename step of the local-favicon rewrite (part_001 lines 352-354). -/
def faviconFilename (faviconPath : String) : String :=
  if faviconPath.data.contains (Char.ofNat 47) then
    String.mk ((splitOnChar (Char.ofNat 47) faviconPath.data).getLast?.getD [])
  else faviconPath

/-- `TemplateRenderer.generateFaviconTags` (part_001 lines 313-366). -/
def generateFaviconTags (config : BuilderConfig) : String :=
  match config.favicon with
  | none => ""
  | some faviconPath =>
    if faviconPath.data.isEmpty then ""
    else
      let isUrl := jsStartsWith faviconPath "http://" || jsStartsWith faviconPath "https://"
      if isUrl then
        "<link rel=\"icon\" href=\"" ++ escapeHtml faviconPath ++ "\">"
      else
        let extension := faviconExtension faviconPath
        let mimeType := faviconMimeType extension
        let faviconUrl := "assets/" ++ faviconFilename faviconPath
        let tags : List String :=
          ["<link rel=\"icon\" type=\"" ++ mimeType ++ "\" href=\"" ++
            escapeHtml faviconUrl ++ "\">"] ++
          (if extension = "ico" then
            ["<link rel=\"shortcut icon\" href=\"" ++ escapeHtml faviconUrl ++ "\">"]
          else [])
        joinStrings "\n    " tags

/-- One stylesheet link per file, joined like the template does. -/
def cssLinkTags (cssFiles : List String) : String :=
  joinStrings "\n    " (cssFiles.map (fun css => "<link rel=\"stylesheet\" href=\"" ++ css ++ "\">"))

/-- One script tag per custom script, joined like the template does. -/
def jsScriptTags (jsFiles : List String) : String :=
  joinStrings "\n    " (jsFiles.map (fun js => "<script src=\"" ++ js ++ "\"></script>"))

/-- Loading indicator markup used when no pre-rendered content is available
(part_001 lines 186-192). -/
def loadingIndicatorHTML : String :=
  "\n        <div class=\"loading\">\n            <div class=\"loading-spinner\"></div>\n            Loading Page Constructor...\n        </div>\n    "

/-- Document template, literal segment before the theme interpolation. -/
def htmlSeg0 : String := "<!DOCTYPE html>\n<html lang=\"en\" data-theme=\""

/-- Literal segment between theme and title. -/
def htmlSeg1 : String :=
  "\">\n<head>\n    <meta charset=\"UTF-8\">\n    <meta name=\"viewport\" content=\"width=device-width, initial-scale=1.0\">\n    <title>"

/-- Literal segment between title and description. -/
def htmlSeg2 : String := "</title>\n    <meta name=\"description\" content=\""

/-- Literal segment between description and base href. -/
def htmlSeg3 : String := "\">\n    "

/-- Literal segment between base href and favicon tags. -/
def htmlSeg4 : String := "\n    \n    <!\x2d\x2d Favicon \x2d\x2d>\n    "

/-- Literal segment between favicon tags and page meta tags. -/
def htmlSeg5 : String := "\n    \n    <!\x2d\x2d Page Meta Tags \x2d\x2d>\n    "

/-- Literal segment between meta tags and generated stylesheet links. -/
def htmlSeg6 : String := "\n    \n    <!\x2d\x2d Page Constructor Styles \x2d\x2d>\n    "

/-- Literal segment between generated and custom stylesheet links. -/
def htmlSeg7 : String := "\n    \n    <!\x2d\x2d Custom CSS \x2d\x2d>\n    "

/-- Inline style block and head/body transition (part_001 lines 115-184). -/
def htmlSeg8 : String :=
  "\n    \n    <style>\n        body \x7b\n            margin: 0;\n            padding: 0;\n            font-family: -apple-system, BlinkMacSystemFont, \x27Segoe UI\x27, \x27Roboto\x27, \x27Oxygen\x27,\n                \x27Ubuntu\x27, \x27Cantarell\x27, \x27Fira Sans\x27, \x27Droid Sans\x27, \x27Helvetica Neue\x27,\n                sans-serif;\n            -webkit-font-smoothing: antialiased;\n            -moz-osx-font-smoothing: grayscale;\n        \x7d\n        \n        #root \x7b\n            min-height: 100vh;\n        \x7d\n        \n        /* Loading indicator */\n        .loading \x7b\n            display: flex;\n            justify-content: center;\n            align-items: center;\n            min-height: 100vh;\n            font-family: -apple-system, BlinkMacSystemFont, \x27Segoe UI\x27, \x27Roboto\x27, sans-serif;\n            color: #666;\n        \x7d\n        \n        .loading-spinner \x7b\n            width: 40px;\n            height: 40px;\n            border: 3px solid #f3f3f3;\n            border-top: 3px solid #007acc;\n            border-radius: 50%;\n            animation: spin 1s linear infinite;\n            margin-right: 12px;\n        \x7d\n        \n        @keyframes spin \x7b\n            0% \x7b transform: rotate(0deg); \x7d\n            100% \x7b transform: rotate(360deg); \x7d\n        \x7d\n        \n        /* Error styles */\n        .ssr-error \x7b\n            padding: 20px;\n            margin: 20px;\n            border: 1px solid #f5c6cb;\n            border-radius: 4px;\n            background-color: #f8d7da;\n            color: #721c24;\n        \x7d\n        \n        .ssr-error h2 \x7b\n            margin-top: 0;\n            color: #721c24;\n        \x7d\n        \n        .ssr-error details \x7b\n            margin-top: 10px;\n        \x7d\n        \n        .ssr-error pre \x7b\n            background: #fff;\n            padding: 10px;\n            border-radius: 4px;\n            overflow-x: auto;\n        \x7d\n    </style>\n</head>\n<body>\n    "

/-- Opening tag of the root container. -/
def rootOpenTag : String := "<div id=\"root\">"

/-- Closing tag of the root container. -/
def rootCloseTag : String := "</div>"

/-- Literal segment between the root container and the serialized page
configuration. -/
def htmlSeg9 : String :=
  "\n    \n    <!\x2d\x2d Page Constructor Client Bundle \x2d\x2d>\n    <script src=\"client.js\"></script>\n    \n    <script>\n        // Page configuration\n        const pageConfig = "

/-- Bootstrap script segment between the serialized page configuration and the
theme interpolation. -/
def htmlSeg10 : String :=
  ";\n        \n        // Initialize Page Constructor when client bundle loads\n        function initializePageConstructor() \x7b\n            if (typeof window.hydratePageConstructor === \x27function\x27) \x7b\n                try \x7b\n                    window.hydratePageConstructor(\x7b\n                        pageConfig: pageConfig,\n                        theme: \x27"

/-- Segment between the theme and the serialized navigation. -/
def htmlSeg11 : String := "\x27,\n                        navigation: "

/-- Segment between the serialized navigation and the analytics code. -/
def htmlSeg12 : String := ",\n                        analytics: "

/-- Remainder of the bootstrap script, through the custom-script comment
(part_001 lines 210-248). -/
def htmlSeg13 : String :=
  "\n                    \x7d);\n                \x7d catch (error) \x7b\n                    console.error(\x27Error initializing Page Constructor:\x27, error);\n                    \n                    // Show error message\n                    const rootElement = document.getElementById(\x27root\x27);\n                    if (rootElement) \x7b\n                        rootElement.innerHTML = \x60\n                            <div class=\"ssr-error\">\n                                <h2>Error Loading Page Constructor</h2>\n                                <p>$\x7berror.message\x7d</p>\n                                <details>\n                                    <summary>Debug Information</summary>\n                                    <pre>$\x7bJSON.stringify(\x7b\n                                        userAgent: navigator.userAgent,\n                                        pageConfig: pageConfig,\n                                        error: error.message\n                                    \x7d, null, 2)\x7d</pre>\n                                </details>\n                            </div>\n                        \x60;\n                    \x7d\n                \x7d\n            \x7d else \x7b\n                // Retry after a short delay if client bundle isn\x27t loaded yet\n                setTimeout(initializePageConstructor, 100);\n            \x7d\n        \x7d\n        \n        // Start initialization when page loads\n        if (document.readyState === \x27loading\x27) \x7b\n            document.addEventListener(\x27DOMContentLoaded\x27, initializePageConstructor);\n        \x7d else \x7b\n            initializePageConstructor();\n        \x7d\n    </script>\n    \n    <!\x2d\x2d Custom JavaScript \x2d\x2d>\n    "

/-- Closing segment of the document. -/
def htmlSeg14 : String := "\n</body>\n</html>"

/-- Root container content: the pre-rendered markup, or the loading indicator
when it is absent or empty (JS `prerenderedContent || ...`). -/
def rootContentOf (prerenderedContent : Option String) : String :=
  match prerenderedContent with
  | some s => if s.data.isEmpty then loadingIndicatorHTML else s
  | none => loadingIndicatorHTML

/-- Head portion of the template (everything before the root container):
theme, escaped title, escaped description, base href, favicon tags, meta tags
and stylesheet links interleaved with the literal segments. -/
def htmlHeadOf (config : BuilderConfig) (pageConfig : PageConfig)
    (generatedCSSFiles : List String) : String :=
  htmlSeg0 ++ jsOrStr config.theme "light" ++ htmlSeg1 ++
    escapeHtml (jsOrStr (pageConfig.meta.bind PageMeta.title) "Page Constructor Builder") ++
    htmlSeg2 ++ escapeHtml (jsOrStr (pageConfig.meta.bind PageMeta.description) "") ++
    htmlSeg3 ++
    (if jsOrStr config.baseUrl "/" ≠ "/" then
      "<base href=\"" ++ jsOrStr config.baseUrl "/" ++ "\">"
    else "") ++
    htmlSeg4 ++ generateFaviconTags config ++ htmlSeg5 ++ generateMetaTags pageConfig ++
    htmlSeg6 ++ cssLinkTags generatedCSSFiles ++ htmlSeg7 ++
    cssLinkTags (pageConfig.css.getD []) ++ htmlSeg8

/-- Tail portion of the template (everything after the root container):
client bundle reference, serialized payload, bootstrap script and custom
scripts interleaved with the literal segments. -/
def htmlTailOf (config : BuilderConfig) (collab : Collab) (pageConfig : PageConfig)
    (navigation : Option NavigationData) (analyticsConfig : Option AnalyticsContextProps) :
    String :=
  htmlSeg9 ++ collab.stringifyPage pageConfig ++ htmlSeg10 ++ jsOrStr config.theme "light" ++
    htmlSeg11 ++ collab.stringifyNav navigation ++ htmlSeg12 ++
    generateAnalyticsCode analyticsConfig ++ htmlSeg13 ++
    jsScriptTags (pageConfig.js.getD []) ++ htmlSeg14

/-- `TemplateRenderer.generateHTML` (part_001 lines 74-251): the complete
document as the concatenation of the template literal segments and the
interpolated values, grouped around the root container. -/
def generateHTML (config : BuilderConfig) (collab : Collab) (pageConfig : PageConfig)
    (navigation : Option NavigationData) (prerenderedContent : Option String)
    (generatedCSSFiles : List String) (analyticsConfig : Option AnalyticsContextProps) :
    String :=
  htmlHeadOf config pageConfig generatedCSSFiles ++
    (rootOpenTag ++ rootContentOf prerenderedContent ++ rootCloseTag) ++
    htmlTailOf config collab pageConfig navigation analyticsConfig

/-- `TemplateRenderer.transformPageContent` (part_001 lines 413-434): the
external `contentTransformer` either yields transformed content, whose blocks
replace the blocks of the input, or throws, in which case the untransformed
input is returned. -/
def transformPageContent (transformer : PageConfig → Except String PageConfig)
    (pageConfig : PageConfig) : PageConfig :=
  match transformer pageConfig with
  | Except.ok transformedContent => { pageConfig with blocks := transformedContent.blocks }
  | Except.error _ => pageConfig

/- ## SSRRenderer (src/src/builder/SSRRenderer.ts) -/

/-- Fallback fragment, literal before the heading (SSRRenderer.ts line 67). -/
def ssrFallbackPre : String :=
  "\n                <div class=\"ssr-error\">\n                    <h2>"

/-- Fallback fragment, literal between the heading and the error message
(SSRRenderer.ts lines 68-72). -/
def ssrFallbackMid : String :=
  "</h2>\n                    <p>The page will be rendered on the client side.</p>\n                    <details>\n                        <summary>Error Details</summary>\n                        <pre>"

/-- Fallback fragment, literal after the error message (SSRRenderer.ts lines 72-75). -/
def ssrFallbackPost : String :=
  "</pre>\n                    </details>\n                </div>\n            "

/-- The fallback HTML fragment returned when the server bundle render call
throws (SSRRenderer.ts lines 66-75). -/
def ssrFallbackHTML (errorMessage : String) : String :=
  ssrFallbackPre ++ "Server-Side Rendering Error" ++ ssrFallbackMid ++ errorMessage ++
    ssrFallbackPost

/-- `SSRRenderer.renderToHTML` after a successful `loadServerBundle`
(SSRRenderer.ts lines 41-77): delegates to the loaded render function and
degrades a thrown error to the fallback fragment instead of propagating it. -/
def renderToHTML (renderPage : RenderFn) (config : BuilderConfig) (pageConfig : PageConfig)
    (navigation : Option NavigationData) (analyticsConfig : Option AnalyticsContextProps) :
    String :=
  match renderPage pageConfig (jsOrStr config.theme "light") navigation analyticsConfig with
  | Except.ok htmlContent => htmlContent
  | Except.error e => ssrFallbackHTML e

/-- `TemplateRenderer.render` (part_001 lines 32-63): load the server bundle
(fails when the bundle file is absent), transform the content, pre-render, and
assemble the document. -/
def templateRender (config : BuilderConfig) (collab : Collab)
    (transformer : PageConfig → Except String PageConfig) (renderPage : RenderFn)
    (serverBundleExists : Bool) (pageConfig : PageConfig)
    (navigation : Option NavigationData) (generatedCSSFiles : List String)
    (analyticsConfig : Option AnalyticsContextProps) : Except String String :=
  if serverBundleExists then
    let transformedPageConfig := transformPageContent transformer pageConfig
    let prerenderedContent :=
      renderToHTML renderPage config transformedPageConfig navigation analyticsConfig
    Except.ok (generateHTML config collab transformedPageConfig navigation
      (some prerenderedContent) generatedCSSFiles analyticsConfig)
  else
    Except.error ("Server bundle not found at " ++ config.output ++ "/server.js")

/- ## WebpackBuilder (src/unnamed/part_003) -/

/-- Outcomes of the effectful steps of `WebpackBuilder.build`: writing the two
temporary entry files and the two webpack runs. -/
structure WebpackEnv where
  writeClientEntry : Except String Unit
  writeServerEntry : Except String Unit
  runClient : Except String Unit
  runServer : Except String Unit

/-- Final state of one `WebpackBuilder.build` invocation: its outcome and
whether each temporary entry file is still on disk afterwards. -/
structure WebpackBuildOut where
  outcome : Except String Unit
  clientEntryOnDisk : Bool
  serverEntryOnDisk : Bool

/-- `WebpackBuilder.build` (part_003 lines 22-51): both entry files are
written before the `try`; the `finally` removes both regardless of the webpack
outcomes.  A failure writing the server entry happens outside the
`try`/`finally`, leaving the already-written client entry on disk. -/
def webpackBuild (env : WebpackEnv) : WebpackBuildOut :=
  match env.writeClientEntry with
  | Except.error e => ⟨Except.error e, false, false⟩
  | Except.ok _ =>
    match env.writeServerEntry with
    | Except.error e => ⟨Except.error e, true, false⟩
    | Except.ok _ =>
      let outcome :=
        match env.runClient with
        | Except.error e => Except.error e
        | Except.ok _ => env.runServer
      ⟨outcome, false, false⟩

/- ## PageBuilder (src/unnamed/part_002) -/

/-- Outcomes of all effectful collaborators of one `PageBuilder.build`
invocation. -/
structure BuildEnv where
  ensureDir : Except String Unit
  copyAssets : Except String Unit
  copyFavicon : Except String Unit
  findYaml : Except String (List String)
  loadComponents : Except String Unit
  webpackStep : Except String Unit
  generatedCSS : List String
  serverAssets : List String
  parsePage : String → Except String PageConfig
  navLoad : Except String (Option NavigationData)
  serverBundleExists : Bool
  renderPage : RenderFn
  transformer : PageConfig → Except String PageConfig
  writePage : String → Except String Unit
  assetExists : String → Bool
  removeAsset : String → Except String Unit
  elapsed : Nat

/-- `PageBuilder.buildPage` (part_002 lines 213-246): parse the YAML file,
load navigation, render through the TemplateRenderer, write the output file.
Any failing step propagates to the per-page catch in the build loop. -/
def buildPage (config : BuilderConfig) (collab : Collab) (env : BuildEnv)
    (yamlFile : String) : Except String Unit :=
  match env.parsePage yamlFile with
  | Except.error e => Except.error e
  | Except.ok pageConfig =>
    match env.navLoad with
    | Except.error e => Except.error e
    | Except.ok navigation =>
      match templateRender config collab env.transformer env.renderPage
          env.serverBundleExists pageConfig navigation env.generatedCSS none with
      | Except.error e => Except.error e
      | Except.ok _html => env.writePage yamlFile

/-- The per-page loop of `PageBuilder.build` (part_002 lines 63-71): a page
failure is recorded with the offending file name and the loop continues. -/
def processPages (config : BuilderConfig) (collab : Collab) (env : BuildEnv)
    (yamlFiles : List String) (result : BuildResult) : BuildResult :=
  match yamlFiles with
  | [] => result
  | yamlFile :: rest =>
    match buildPage config collab env yamlFile with
    | Except.ok _ =>
      processPages config collab env rest
        { result with pagesBuilt := result.pagesBuilt + 1 }
    | Except.error e =>
      processPages config collab env rest
        { result with errors := result.errors ++ ["Error building " ++ yamlFile ++ ": " ++ e] }

/-- Whether `buildPage` succeeded for a file. -/
def buildPageOk (config : BuilderConfig) (collab : Collab) (env : BuildEnv)
    (yamlFile : String) : Bool :=
  match buildPage config collab env yamlFile with
  | Except.ok _ => true
  | Except.error _ => false

/-- The per-page error message of a failed `buildPage` (empty on success). -/
def buildPageErr (config : BuilderConfig) (collab : Collab) (env : BuildEnv)
    (yamlFile : String) : String :=
  match buildPage config collab env yamlFile with
  | Except.ok _ => ""
  | Except.error e => e

/-- Accumulator of `PageBuilder.cleanupServerBundle`. -/
structure CleanupOut where
  removed : List String
  removedCount : Nat
  log : List String
deriving DecidableEq

/-- `PageBuilder.cleanupServerBundle` (part_002 lines 333-360): remove each
recorded server asset; per-asset failures are collected and logged as console
warnings, never surfaced to the caller. -/
def cleanupServerBundle (env : BuildEnv) : CleanupOut :=
  env.serverAssets.foldl
    (fun acc assetPath =>
      if env.assetExists assetPath then
        match env.removeAsset assetPath with
        | Except.ok _ =>
          { acc with removed := acc.removed ++ [assetPath],
                     removedCount := acc.removedCount + 1 }
        | Except.error e =>
          { acc with log := acc.log ++ ["Failed to remove " ++ assetPath ++ ": " ++ e] }
      else acc)
    ⟨[], 0, []⟩

/-- Observable outcome of one `PageBuilder.build` invocation: the returned
result plus the cleanup effects. -/
structure BuildOutput where
  result : BuildResult
  cleanupRan : Bool
  removedAssets : List String
  cleanupLog : List String
deriving DecidableEq

/-- The catch-all path of `PageBuilder.build` (part_002 lines 82-87): a
structural failure before the page loop. -/
def failedBuild (env : BuildEnv) (e : String) : BuildOutput :=
  { result := { pagesBuilt := 0, buildTime := env.elapsed,
                errors := ["Build failed: " ++ e], warnings := [] },
    cleanupRan := false, removedAssets := [], cleanupLog := [] }

/-- `PageBuilder.build` (part_002 lines 24-88). -/
def build (config : BuilderConfig) (collab : Collab) (env : BuildEnv) : BuildOutput :=
  match env.ensureDir with
  | Except.error e => failedBuild env e
  | Except.ok _ =>
  match env.copyAssets with
  | Except.error e => failedBuild env e
  | Except.ok _ =>
  match env.copyFavicon with
  | Except.error e => failedBuild env e
  | Except.ok _ =>
  match env.findYaml with
  | Except.error e => failedBuild env e
  | Except.ok yamlFiles =>
    if yamlFiles.isEmpty then
      { result := { pagesBuilt := 0, buildTime := 0, errors := [],
                    warnings := ["No YAML files found in input directory"] },
        cleanupRan := false, removedAssets := [], cleanupLog := [] }
    else
      match env.loadComponents with
      | Except.error e => failedBuild env e
      | Except.ok _ =>
      match env.webpackStep with
      | Except.error e => failedBuild env e
      | Except.ok _ =>
        let result := processPages config collab env yamlFiles
          { pagesBuilt := 0, buildTime := 0, errors := [], warnings := [] }
        if result.errors.isEmpty then
          let cleanup := cleanupServerBundle env
          { result := { result with buildTime := env.elapsed },
            cleanupRan := true, removedAssets := cleanup.removed,
            cleanupLog := cleanup.log }
        else
          { result := { result with buildTime := env.elapsed },
            cleanupRan := false, removedAssets := [], cleanupLog := [] }

/- ## CLI build command (src/src/cli.ts lines 30-65) -/

/-- The `build` command action: config loading may throw (caught, printed,
`process.exit(1)`); a returned Build Result is printed and the process ends
normally (exit status 0).  The second component is the process exit status. -/
def cliBuildAction (loadCfg : Except String BuilderConfig)
    (runBuild : BuilderConfig → BuildResult) : List String × Nat :=
  match loadCfg with
  | Except.error e => (["❌ Build failed: " ++ e], 1)
  | Except.ok config =>
    let result := runBuild config
    let headerLines : List String :=
      ["🚀 Building pages...", "📁 Input: " ++ config.input, "📁 Output: " ++ config.output]
    let errorLines : List String :=
      if result.errors.isEmpty then []
      else "❌ Build completed with errors:" :: result.errors.map (fun e => "  - " ++ e)
    let warningLines : List String :=
      if result.warnings.isEmpty then []
      else "⚠️  Build completed with warnings:" :: result.warnings.map (fun w => "  - " ++ w)
    let successLines : List String :=
      if result.errors.isEmpty then
        ["✅ Build completed successfully!",
         "📄 Pages built: " ++ toString result.pagesBuilt,
         "⏱️  Build time: " ++ toString result.buildTime ++ "ms"]
      else []
    (headerLines ++ errorLines ++ warningLines ++ successLines, 0)

/- ## Auxiliary definitions for the statements and their instances -/

/-- An environment with the cleanup collaborators replaced. -/
def withCleanupEnv (env : BuildEnv) (presentFn : String → Bool)
    (removeFn : String → Except String Unit) : BuildEnv :=
  { env with assetExists := presentFn, removeAsset := removeFn }

/-- The early-return path of `PageBuilder.build`: all structural steps succeed
and no YAML file is discovered (part_002 lines 48-51). -/
def earlyNoFilesPath (env : BuildEnv) : Prop :=
  env.ensureDir = Except.ok () ∧ env.copyAssets = Except.ok () ∧
    env.copyFavicon = Except.ok () ∧ env.findYaml = Except.ok []

/-- Concrete build configuration used for instances. -/
def cfgW : BuilderConfig :=
  { input := "./pages", output := "./dist", theme := some "light", baseUrl := none,
    favicon := none }

/-- Concrete serializers used for instances. -/
def collabW : Collab :=
  { stringifyPage := fun _ => "null", stringifyNav := fun _ => "undefined" }

/-- A small well-formed page description. -/
def pcHome : PageConfig :=
  { blocks := ["header-block"], meta := none, css := none, js := none, navigation := none }

/-- A page description with a sharing title containing an ampersand. -/
def pcShare : PageConfig :=
  { blocks := [],
    meta := some
      { title := none, description := none,
        sharing := some
          { title := some "Hello & Co", description := none, image := none },
        keywords := none },
    css := none, js := none, navigation := none }

/-- A page description with sharing title, description and image, all
containing characters that need escaping. -/
def pcShareFull : PageConfig :=
  { blocks := [],
    meta := some
      { title := none, description := none,
        sharing := some
          { title := some "Hello & Co",
            description := some "A <b> shop",
            image := some "https://img.example.com/x.png?a=1&b=2" },
        keywords := none },
    css := none, js := none, navigation := none }

/-- A page description whose keywords contain characters that need escaping. -/
def pcEvil : PageConfig :=
  { blocks := [],
    meta := some { title := none, description := none, sharing := none,
                   keywords := some ["<evil>"] },
    css := none, js := none, navigation := none }

/-- Environment of a build discovering one valid page (`home.yaml`) and one
malformed page (`broken.yaml`). -/
def envTwoPages : BuildEnv :=
  { ensureDir := Except.ok (), copyAssets := Except.ok (), copyFavicon := Except.ok (),
    findYaml := Except.ok ["home.yaml", "broken.yaml"],
    loadComponents := Except.ok (), webpackStep := Except.ok (),
    generatedCSS := ["styles.css"], serverAssets := ["/abs/dist/server.js"],
    parsePage := fun f =>
      if f = "broken.yaml" then Except.error "Unexpected scalar at line 3"
      else Except.ok pcHome,
    navLoad := Except.ok none, serverBundleExists := true,
    renderPage := fun _ _ _ _ => Except.ok "<div>ok</div>",
    transformer := fun pc => Except.ok pc,
    writePage := fun _ => Except.ok (),
    assetExists := fun _ => true, removeAsset := fun _ => Except.ok (),
    elapsed := 42 }

/-- Environment of a build whose single page succeeds but whose every
server-asset removal fails. -/
def envAllRemovalsFail : BuildEnv :=
  { envTwoPages with
    findYaml := Except.ok ["home.yaml"],
    parsePage := fun _ => Except.ok pcHome,
    serverAssets := ["/abs/dist/server.js", "/abs/dist/server.js.map"],
    removeAsset := fun _ => Except.error "EPERM: operation not permitted" }

/-- Environment of a build discovering no YAML files. -/
def envNoPages : BuildEnv :=
  { envTwoPages with findYaml := Except.ok [] }

/-- Environment whose loaded server bundle render function always throws. -/
def envC1 : BuildEnv :=
  { envTwoPages with
    findYaml := Except.ok ["home.yaml"],
    parsePage := fun _ => Except.ok pcHome,
    renderPage := fun _ _ _ _ => Except.error "boom" }

/-- Configuration with an absolute-URL favicon free of escapable characters. -/
def cfgUrlFav : BuilderConfig :=
  { cfgW with favicon := some "https://example.com/icon.png" }

/-- Configuration with an absolute-URL favicon containing an ampersand. -/
def cfgUrlFavAmp : BuilderConfig :=
  { cfgW with favicon := some "https://example.com/i.png?a=1&b=2" }

/-- The CLI build runner instantiated with the two-page environment. -/
def runBuildW : BuilderConfig → BuildResult :=
  fun config => (build config collabW envTwoPages).result

/- ## Helper lemmas -/

theorem strInfix_append_left (p : String) {m s : String} (h : strInfix m s) :
    strInfix m (p ++ s) := by
  obtain ⟨a, b, hab⟩ := h
  refine ⟨p.data ++ a, b, ?_⟩
  rw [String.data_append, ← hab]
  simp [List.append_assoc]

theorem strInfix_append_right (t : String) {m s : String} (h : strInfix m s) :
    strInfix m (s ++ t) := by
  obtain ⟨a, b, hab⟩ := h
  refine ⟨a, b ++ t.data, ?_⟩
  rw [String.data_append, ← hab]
  simp [List.append_assoc]

theorem joinStrings_mem_infix (sep : String) (l : List String) (s : String) (h : s ∈ l) :
    strInfix s (joinStrings sep l) := by
  induction l with
  | nil => cases h
  | cons x rest ih =>
    cases rest with
    | nil =>
      have hs : s = x := by simpa using h
      subst hs
      exact ⟨[], [], by simp [joinStrings]⟩
    | cons y t =>
      rcases List.mem_cons.mp h with rfl | hmem
      · refine ⟨[], (sep ++ joinStrings sep (y :: t)).data, ?_⟩
        simp [joinStrings, String.data_append, List.append_assoc]
      · have hgoal := strInfix_append_left (x ++ sep) (ih hmem)
        rw [show joinStrings sep (x :: y :: t) = x ++ sep ++ joinStrings sep (y :: t) from rfl]
        exact hgoal

theorem escapeCharL_no_raw (c : Char) :
    ∀ d ∈ escapeCharL c,
      d ≠ '<' ∧ d ≠ '>' ∧ d ≠ Char.ofNat 34 ∧ d ≠ Char.ofNat 39 := by
  intro d hd
  unfold escapeCharL at hd
  split at hd
  · exact (by decide :
      ∀ x ∈ "&amp;".data, x ≠ '<' ∧ x ≠ '>' ∧ x ≠ Char.ofNat 34 ∧ x ≠ Char.ofNat 39) d hd
  · split at hd
    · exact (by decide :
        ∀ x ∈ "&lt;".data, x ≠ '<' ∧ x ≠ '>' ∧ x ≠ Char.ofNat 34 ∧ x ≠ Char.ofNat 39) d hd
    · split at hd
      · exact (by decide :
          ∀ x ∈ "&gt;".data, x ≠ '<' ∧ x ≠ '>' ∧ x ≠ Char.ofNat 34 ∧ x ≠ Char.ofNat 39) d hd
      · split at hd
        · exact (by decide :
            ∀ x ∈ "&quot;".data,
              x ≠ '<' ∧ x ≠ '>' ∧ x ≠ Char.ofNat 34 ∧ x ≠ Char.ofNat 39) d hd
        · split at hd
          · exact (by decide :
              ∀ x ∈ "&#39;".data,
                x ≠ '<' ∧ x ≠ '>' ∧ x ≠ Char.ofNat 34 ∧ x ≠ Char.ofNat 39) d hd
          · have hdc : d = c := by simpa using hd
            subst hdc
            refine ⟨?_, ?_, ?_, ?_⟩ <;> assumption

theorem escapeHtml_no_raw (s : String) :
    ∀ c ∈ (escapeHtml s).data,
      c ≠ '<' ∧ c ≠ '>' ∧ c ≠ Char.ofNat 34 ∧ c ≠ Char.ofNat 39 := by
  intro c hc
  obtain ⟨d, _, hcd⟩ := List.mem_flatMap.mp hc
  exact escapeCharL_no_raw d c hcd

theorem flatMap_escapeCharL_id {l : List Char} (h : ∀ c ∈ l, escapeCharL c = [c]) :
    l.flatMap escapeCharL = l := by
  induction l with
  | nil => rfl
  | cons c cs ih =>
    rw [List.flatMap_cons, h c (List.mem_cons_self c cs),
      ih (fun d hd => h d (List.mem_cons_of_mem c hd))]
    rfl

theorem escapeHtml_id (s : String) (h : ∀ c ∈ s.data, escapeCharL c = [c]) :
    escapeHtml s = s := by
  obtain ⟨l⟩ := s
  exact congrArg String.mk (flatMap_escapeCharL_id h)

theorem ssrFallbackHTML_data (msg : String) :
    (ssrFallbackHTML msg).data =
      ssrFallbackPre.data ++ ("Server-Side Rendering Error".data ++
        (ssrFallbackMid.data ++ (msg.data ++ ssrFallbackPost.data))) := by
  simp [ssrFallbackHTML, String.data_append, List.append_assoc]

theorem ssrFallbackHTML_ne_empty (msg : String) :
    (ssrFallbackHTML msg).data.isEmpty = false := by
  rw [ssrFallbackHTML_data]
  rfl

theorem rootContentOf_fallback (msg : String) :
    rootContentOf (some (ssrFallbackHTML msg)) = ssrFallbackHTML msg := by
  simp [rootContentOf, ssrFallbackHTML_ne_empty]

/-- Closed form of the per-page loop: each successful page increments
`pagesBuilt`, each failing page appends exactly one error naming its file, in
file order. -/
theorem processPages_spec (config : BuilderConfig) (collab : Collab) (env : BuildEnv) :
    ∀ (yamlFiles : List String) (result : BuildResult),
      processPages config collab env yamlFiles result =
        { result with
          pagesBuilt := result.pagesBuilt + yamlFiles.countP (buildPageOk config collab env),
          errors := result.errors ++
            (yamlFiles.filter (fun f => !buildPageOk config collab env f)).map
              (fun f => "Error building " ++ f ++ ": " ++ buildPageErr config collab env f) } := by
  intro yamlFiles
  induction yamlFiles with
  | nil => intro result; simp [processPages]
  | cons f fs ih =>
    intro result
    unfold processPages
    cases hb : buildPage config collab env f with
    | ok u =>
      have hok : buildPageOk config collab env f = true := by simp [buildPageOk, hb]
      simp [ih, List.countP_cons, List.filter_cons, hok, Nat.add_assoc, Nat.add_comm]
    | error e =>
      have hok : buildPageOk config collab env f = false := by simp [buildPageOk, hb]
      have herr : buildPageErr config collab env f = e := by simp [buildPageErr, hb]
      simp [ih, List.countP_cons, List.filter_cons, hok, herr, List.append_assoc]

/-- Reduction of `build` once every pre-loop step has succeeded and at least
one YAML file was discovered. -/
theorem build_after_pipeline (config : BuilderConfig) (collab : Collab) (env : BuildEnv)
    (yamlFiles : List String)
    (h1 : env.ensureDir = Except.ok ()) (h2 : env.copyAssets = Except.ok ())
    (h3 : env.copyFavicon = Except.ok ()) (h4 : env.findYaml = Except.ok yamlFiles)
    (h5 : yamlFiles.isEmpty = false)
    (h6 : env.loadComponents = Except.ok ()) (h7 : env.webpackStep = Except.ok ()) :
    build config collab env =
      (if (processPages config collab env yamlFiles
            { pagesBuilt := 0, buildTime := 0, errors := [], warnings := [] }).errors.isEmpty
       then
        { result := { processPages config collab env yamlFiles
              { pagesBuilt := 0, buildTime := 0, errors := [], warnings := [] } with
            buildTime := env.elapsed },
          cleanupRan := true, removedAssets := (cleanupServerBundle env).removed,
          cleanupLog := (cleanupServerBundle env).log }
       else
        { result := { processPages config collab env yamlFiles
              { pagesBuilt := 0, buildTime := 0, errors := [], warnings := [] } with
            buildTime := env.elapsed },
          cleanupRan := false, removedAssets := [], cleanupLog := [] }) := by
  unfold build
  rw [h1, h2, h3, h4, h6, h7]
  simp [h5]

/-- C8: for every page config, the content-transformation step changes at most
the `blocks` field: on success the result is the input with `blocks` replaced
by the transformer output, on transformer failure the untransformed input is
returned; `meta`, `css`, `js` and `navigation` are unchanged in both cases. -/
theorem c8_transform_frame (transformer : PageConfig → Except String PageConfig)
    (pageConfig : PageConfig) :
    ((transformPageContent transformer pageConfig).meta = pageConfig.meta ∧
     (transformPageContent transformer pageConfig).css = pageConfig.css ∧
     (transformPageContent transformer pageConfig).js = pageConfig.js ∧
     (transformPageContent transformer pageConfig).navigation = pageConfig.navigation) ∧
    (∀ t, transformer pageConfig = Except.ok t →
      transformPageContent transformer pageConfig = { pageConfig with blocks := t.blocks }) ∧
    (∀ e, transformer pageConfig = Except.error e →
      transformPageContent transformer pageConfig = pageConfig) := by
  unfold transformPageContent
  cases h : transformer pageConfig <;> simp_all

/-- Witness for C8 at a concrete transformer, page and failure. -/
theorem c8_transform_frame_witness :
    transformPageContent (fun pc => Except.ok { pc with blocks := ["T"] }) pcHome =
      { pcHome with blocks := ["T"] } ∧
    transformPageContent (fun _ => Except.error "transform failed") pcHome = pcHome :=
  ⟨(c8_transform_frame (fun pc => Except.ok { pc with blocks := ["T"] }) pcHome).2.1 _ rfl,
   (c8_transform_frame (fun _ => Except.error "transform failed") pcHome).2.2 _ rfl⟩

/-- C7: whenever both temporary entry files were written at the start of a
`WebpackBuilder.build` invocation, both are removed before the invocation
completes, whether the webpack runs succeed or fail. -/
theorem c7_entry_files_removed (env : WebpackEnv)
    (hc : env.writeClientEntry = Except.ok ()) (hs : env.writeServerEntry = Except.ok ()) :
    (webpackBuild env).clientEntryOnDisk = false ∧
    (webpackBuild env).serverEntryOnDisk = false := by
  unfold webpackBuild
  rw [hc, hs]
  exact ⟨rfl, rfl⟩

/-- C2: a failure building one page is caught at the page boundary: exactly
one error naming the offending file is appended, `pagesBuilt` is not
incremented for it, and every remaining page is still processed; with one
valid page and one malformed page the build returns `pagesBuilt = 1` and one
error naming the malformed file. -/
theorem c2_page_failure_isolated :
    (∀ (config : BuilderConfig) (collab : Collab) (env : BuildEnv)
        (yamlFiles : List String) (result : BuildResult),
      processPages config collab env yamlFiles result =
        { result with
          pagesBuilt := result.pagesBuilt + yamlFiles.countP (buildPageOk config collab env),
          errors := result.errors ++
            (yamlFiles.filter (fun f => !buildPageOk config collab env f)).map
              (fun f => "Error building " ++ f ++ ": " ++ buildPageErr config collab env f) }) ∧
    (build cfgW collabW envTwoPages).result.pagesBuilt = 1 ∧
    (build cfgW collabW envTwoPages).result.errors =
      ["Error building broken.yaml: Unexpected scalar at line 3"] := by
  refine ⟨processPages_spec, ?_, ?_⟩ <;> rfl

/-- C3: cleanup of the recorded server bundle assets runs exactly when the
error list is empty after page processing; when any page failed, no server
bundle file is removed. -/
theorem c3_cleanup_iff_no_errors (config : BuilderConfig) (collab : Collab) (env : BuildEnv)
    (yamlFiles : List String)
    (h1 : env.ensureDir = Except.ok ()) (h2 : env.copyAssets = Except.ok ())
    (h3 : env.copyFavicon = Except.ok ()) (h4 : env.findYaml = Except.ok yamlFiles)
    (h5 : yamlFiles.isEmpty = false)
    (h6 : env.loadComponents = Except.ok ()) (h7 : env.webpackStep = Except.ok ()) :
    ((build config collab env).cleanupRan = true ↔
      (build config collab env).result.errors = []) ∧
    ((build config collab env).result.errors ≠ [] →
      (build config collab env).removedAssets = []) := by
  rw [build_after_pipeline config collab env yamlFiles h1 h2 h3 h4 h5 h6 h7]
  cases he : (processPages config collab env yamlFiles
      { pagesBuilt := 0, buildTime := 0, errors := [], warnings := [] }).errors.isEmpty with
  | false =>
    have hne : (processPages config collab env yamlFiles
        { pagesBuilt := 0, buildTime := 0, errors := [], warnings := [] }).errors ≠ [] := by
      intro hnil
      rw [hnil] at he
      exact absurd he (by simp)
    simp [he, hne]
  | true =>
    have hemp : (processPages config collab env yamlFiles
        { pagesBuilt := 0, buildTime := 0, errors := [], warnings := [] }).errors = [] := by
      cases hh : (processPages config collab env yamlFiles
          { pagesBuilt := 0, buildTime := 0, errors := [], warnings := [] }).errors with
      | nil => rfl
      | cons a l => rw [hh] at he; exact absurd he (by simp)
    simp [he, hemp]

/-- Witness for C3 at the two-page environment whose second page fails. -/
theorem c3_cleanup_iff_no_errors_witness :
    ((build cfgW collabW envTwoPages).cleanupRan = true ↔
      (build cfgW collabW envTwoPages).result.errors = []) ∧
    ((build cfgW collabW envTwoPages).result.errors ≠ [] →
      (build cfgW collabW envTwoPages).removedAssets = []) :=
  c3_cleanup_iff_no_errors cfgW collabW envTwoPages ["home.yaml", "broken.yaml"]
    rfl rfl rfl rfl rfl rfl rfl

/-- C9: per-asset cleanup failures are only logged: when page processing
produced no errors the build still returns an empty error list, cleanup runs,
and the failure messages go to the cleanup log only — even when every removal
fails, as in the concrete environment. -/
theorem c9_cleanup_failures_logged_only (config : BuilderConfig) (collab : Collab)
    (env : BuildEnv) (yamlFiles : List String)
    (h1 : env.ensureDir = Except.ok ()) (h2 : env.copyAssets = Except.ok ())
    (h3 : env.copyFavicon = Except.ok ()) (h4 : env.findYaml = Except.ok yamlFiles)
    (h5 : yamlFiles.isEmpty = false)
    (h6 : env.loadComponents = Except.ok ()) (h7 : env.webpackStep = Except.ok ())
    (hnoerr : (processPages config collab env yamlFiles
      { pagesBuilt := 0, buildTime := 0, errors := [], warnings := [] }).errors = []) :
    ((build config collab env).result.errors = [] ∧
     (build config collab env).cleanupRan = true ∧
     (build config collab env).cleanupLog = (cleanupServerBundle env).log) ∧
    ((build cfgW collabW envAllRemovalsFail).result.errors = [] ∧
     (build cfgW collabW envAllRemovalsFail).cleanupRan = true ∧
     (build cfgW collabW envAllRemovalsFail).removedAssets = [] ∧
     (build cfgW collabW envAllRemovalsFail).cleanupLog =
       ["Failed to remove /abs/dist/server.js: EPERM: operation not permitted",
        "Failed to remove /abs/dist/server.js.map: EPERM: operation not permitted"]) := by
  rw [build_after_pipeline config collab env yamlFiles h1 h2 h3 h4 h5 h6 h7]
  refine ⟨by simp [hnoerr], ?_, ?_, ?_, ?_⟩ <;> rfl

/-- Witness for C9 at the environment whose every asset removal fails. -/
theorem c9_cleanup_failures_logged_only_witness :
    (build cfgW collabW envAllRemovalsFail).result.errors = [] ∧
    (build cfgW collabW envAllRemovalsFail).cleanupRan = true ∧
    (build cfgW collabW envAllRemovalsFail).cleanupLog =
      (cleanupServerBundle envAllRemovalsFail).log :=
  (c9_cleanup_failures_logged_only cfgW collabW envAllRemovalsFail ["home.yaml"]
    rfl rfl rfl rfl rfl rfl rfl rfl).1

/-- C10: when no YAML file is discovered, the build returns early with zero
pages, no errors, exactly the no-files warning, and a `buildTime` of zero —
whereas every other exit path records the elapsed time. -/
theorem c10_no_yaml_early_return (config : BuilderConfig) (collab : Collab) (env : BuildEnv)
    (h : earlyNoFilesPath env) :
    (build config collab env).result =
      { pagesBuilt := 0, buildTime := 0, errors := [],
        warnings := ["No YAML files found in input directory"] } ∧
    (build config collab env).cleanupRan = false ∧
    (∀ (config2 : BuilderConfig) (collab2 : Collab) (env2 : BuildEnv),
      ¬ earlyNoFilesPath env2 →
        (build config2 collab2 env2).result.buildTime = env2.elapsed) := by
  obtain ⟨h1, h2, h3, h4⟩ := h
  refine ⟨?_, ?_, ?_⟩
  · unfold build; rw [h1, h2, h3, h4]; rfl
  · unfold build; rw [h1, h2, h3, h4]; rfl
  · intro config2 collab2 env2 hne
    unfold build
    cases ha : env2.ensureDir with
    | error e => rfl
    | ok ua =>
      cases ua
      cases hb : env2.copyAssets with
      | error e => rfl
      | ok ub =>
        cases ub
        cases hc : env2.copyFavicon with
        | error e => rfl
        | ok uc =>
          cases uc
          cases hd : env2.findYaml with
          | error e => rfl
          | ok files =>
            cases hf : files.isEmpty with
            | true =>
              exfalso
              have hfe : files = [] := by
                cases files with
                | nil => rfl
                | cons a l => exact absurd hf (by simp)
              subst hfe
              exact hne ⟨ha, hb, hc, hd⟩
            | false =>
              simp only [hf]
              split
              · exact absurd (by assumption) (by simp : ¬ false = true)
              · cases hl : env2.loadComponents with
                | error e => rfl
                | ok ul =>
                  cases ul
                  cases hw : env2.webpackStep with
                  | error e => rfl
                  | ok uw =>
                    cases uw
                    cases hpe : (processPages config2 collab2 env2 files
                        { pagesBuilt := 0, buildTime := 0, errors := [],
                          warnings := [] }).errors.isEmpty <;> rfl

/-- Witness for C10: the no-pages environment takes the early path with
`buildTime = 0`; the two-page environment records the elapsed time. -/
theorem c10_no_yaml_early_return_witness :
    (build cfgW collabW envNoPages).result =
      { pagesBuilt := 0, buildTime := 0, errors := [],
        warnings := ["No YAML files found in input directory"] } ∧
    (build cfgW collabW envTwoPages).result.buildTime = envTwoPages.elapsed := by
  have h := c10_no_yaml_early_return cfgW collabW envNoPages ⟨rfl, rfl, rfl, rfl⟩
  refine ⟨h.1, h.2.2 cfgW collabW envTwoPages ?_⟩
  intro hearly
  have hlist := hearly.2.2.2
  simp [envTwoPages] at hlist

/-- C5 counterexample: a completed build whose error list is non-empty still
exits with status 0 — `PageBuilder.build` swallows all errors into the result
and the CLI action only exits non-zero from its catch block. -/
theorem c5_exit_zero_with_errors_cex :
    (cliBuildAction (Except.ok cfgW) runBuildW).2 = 0 ∧
    (build cfgW collabW envTwoPages).result.errors ≠ [] := by
  refine ⟨rfl, ?_⟩
  intro h
  exact absurd (congrArg List.length h) (by decide)

/-- C5 (amended): the CLI prints every accumulated error and warning after a
completed run, but exits non-zero only when a top-level exception (config
loading) is thrown; a completed build exits 0 even when errors are present. -/
theorem c5_cli_exit_policy (loadCfg : Except String BuilderConfig)
    (runBuild : BuilderConfig → BuildResult) :
    (∀ e, loadCfg = Except.error e → (cliBuildAction loadCfg runBuild).2 = 1) ∧
    (∀ config, loadCfg = Except.ok config →
      (cliBuildAction loadCfg runBuild).2 = 0 ∧
      (∀ er ∈ (runBuild config).errors,
        ("  - " ++ er) ∈ (cliBuildAction loadCfg runBuild).1) ∧
      (∀ w ∈ (runBuild config).warnings,
        ("  - " ++ w) ∈ (cliBuildAction loadCfg runBuild).1)) := by
  constructor
  · intro e he
    subst he
    rfl
  · intro config hc
    subst hc
    have hlines : (cliBuildAction (Except.ok config) runBuild).1 =
        ["🚀 Building pages...", "📁 Input: " ++ config.input,
         "📁 Output: " ++ config.output] ++
        (if (runBuild config).errors.isEmpty then []
         else "❌ Build completed with errors:" ::
           (runBuild config).errors.map (fun e => "  - " ++ e)) ++
        (if (runBuild config).warnings.isEmpty then []
         else "⚠️  Build completed with warnings:" ::
           (runBuild config).warnings.map (fun w => "  - " ++ w)) ++
        (if (runBuild config).errors.isEmpty then
          ["✅ Build completed successfully!",
           "📄 Pages built: " ++ toString (runBuild config).pagesBuilt,
           "⏱️  Build time: " ++ toString (runBuild config).buildTime ++ "ms"]
         else []) := rfl
    refine ⟨rfl, ?_, ?_⟩
    · intro er her
      have hne : (runBuild config).errors.isEmpty = false := by
        cases hh : (runBuild config).errors with
        | nil => rw [hh] at her; cases her
        | cons a l => rfl
      rw [hlines]
      have hred : (if (runBuild config).errors.isEmpty then ([] : List String)
          else "❌ Build completed with errors:" ::
            (runBuild config).errors.map (fun e => "  - " ++ e)) =
          "❌ Build completed with errors:" ::
            (runBuild config).errors.map (fun e => "  - " ++ e) := by
        simp [hne]
      rw [hred]
      exact List.mem_append_left _ (List.mem_append_left _ (List.mem_append_right _
        (List.mem_cons_of_mem _ (List.mem_map_of_mem _ her))))
    · intro w hw
      have hne : (runBuild config).warnings.isEmpty = false := by
        cases hh : (runBuild config).warnings with
        | nil => rw [hh] at hw; cases hw
        | cons a l => rfl
      rw [hlines]
      have hred : (if (runBuild config).warnings.isEmpty then ([] : List String)
          else "⚠️  Build completed with warnings:" ::
            (runBuild config).warnings.map (fun w => "  - " ++ w)) =
          "⚠️  Build completed with warnings:" ::
            (runBuild config).warnings.map (fun w => "  - " ++ w) := by
        simp [hne]
      rw [hred]
      exact List.mem_append_left _ (List.mem_append_right _
        (List.mem_cons_of_mem _ (List.mem_map_of_mem _ hw)))

/-- Witness for C5 (amended) at the two-page build with one failing page. -/
theorem c5_cli_exit_policy_witness :
    (cliBuildAction (Except.ok cfgW) runBuildW).2 = 0 ∧
    ("  - Error building broken.yaml: Unexpected scalar at line 3") ∈
      (cliBuildAction (Except.ok cfgW) runBuildW).1 := by
  have h := (c5_cli_exit_policy (Except.ok cfgW) runBuildW).2 cfgW rfl
  refine ⟨h.1, h.2.1 _ ?_⟩
  show _ ∈ (runBuildW cfgW).errors
  rw [show (runBuildW cfgW).errors =
    ["Error building broken.yaml: Unexpected scalar at line 3"] from rfl]
  exact List.mem_singleton.mpr rfl

theorem favicon_url_ne_empty {s : String}
    (h : (jsStartsWith s "http://" || jsStartsWith s "https://") = true) :
    s.data.isEmpty = false := by
  cases hd : s.data with
  | cons a l => rfl
  | nil =>
    exfalso
    unfold jsStartsWith at h
    rw [hd] at h
    exact absurd h (by decide)

/-- The absolute-URL branch of `generateFaviconTags`: one bare icon link whose
href is the HTML-escaped favicon value. -/
theorem generateFaviconTags_url (config : BuilderConfig) (fav : String)
    (hfav : config.favicon = some fav)
    (hurl : (jsStartsWith fav "http://" || jsStartsWith fav "https://") = true) :
    generateFaviconTags config = "<link rel=\"icon\" href=\"" ++ escapeHtml fav ++ "\">" := by
  have hne := favicon_url_ne_empty hurl
  unfold generateFaviconTags
  rw [hfav]
  simp [hne, hurl]

/-- C6 counterexample: for a favicon URL containing an ampersand the emitted
href text is the HTML-escaped value, not the configured value verbatim. -/
theorem c6_favicon_href_escaped_cex :
    generateFaviconTags cfgUrlFavAmp =
      "<link rel=\"icon\" href=\"https://example.com/i.png?a=1&amp;b=2\">" ∧
    ¬ strInfix "href=\"https://example.com/i.png?a=1&b=2\""
      (generateFaviconTags cfgUrlFavAmp) := by
  exact ⟨by decide, by decide⟩

/-- C6 (amended): for an absolute-URL favicon the builder emits a single bare
icon link, with no assets rewriting and no MIME type attribute, whose href is
the HTML-escaped configured value; the href equals the configured value
verbatim exactly when the value contains none of the five escaped
characters. -/
theorem c6_favicon_url_policy (config : BuilderConfig) (fav : String)
    (hfav : config.favicon = some fav)
    (hurl : (jsStartsWith fav "http://" || jsStartsWith fav "https://") = true) :
    generateFaviconTags config = "<link rel=\"icon\" href=\"" ++ escapeHtml fav ++ "\">" ∧
    ((∀ c ∈ fav.data, escapeCharL c = [c]) →
      generateFaviconTags config = "<link rel=\"icon\" href=\"" ++ fav ++ "\">") := by
  have htags := generateFaviconTags_url config fav hfav hurl
  exact ⟨htags, fun hid => by rw [htags, escapeHtml_id fav hid]⟩

/-- Witness for C6 (amended) at a URL favicon free of escapable characters. -/
theorem c6_favicon_url_policy_witness :
    generateFaviconTags cfgUrlFav =
      "<link rel=\"icon\" href=\"" ++ escapeHtml "https://example.com/icon.png" ++ "\">" ∧
    generateFaviconTags cfgUrlFav =
      "<link rel=\"icon\" href=\"" ++ "https://example.com/icon.png" ++ "\">" := by
  have h := c6_favicon_url_policy cfgUrlFav "https://example.com/icon.png" rfl (by decide)
  exact ⟨h.1, h.2 (by decide)⟩

/-- Anything infix of the head portion is infix of the whole document. -/
theorem strInfix_head_doc {m : String} (config : BuilderConfig) (collab : Collab)
    (pageConfig : PageConfig) (navigation : Option NavigationData) (pre : Option String)
    (css : List String) (an : Option AnalyticsContextProps)
    (h : strInfix m (htmlHeadOf config pageConfig css)) :
    strInfix m (generateHTML config collab pageConfig navigation pre css an) := by
  show strInfix m (htmlHeadOf config pageConfig css ++
    (rootOpenTag ++ rootContentOf pre ++ rootCloseTag) ++
    htmlTailOf config collab pageConfig navigation an)
  exact strInfix_append_right _ (strInfix_append_right _ h)

/-- The generated meta tags occur verbatim in the head of the document. -/
theorem generateMetaTags_infix_head (config : BuilderConfig) (pageConfig : PageConfig)
    (css : List String) :
    strInfix (generateMetaTags pageConfig) (htmlHeadOf config pageConfig css) := by
  refine strInfix_of_eq
    (htmlSeg0 ++ jsOrStr config.theme "light" ++ htmlSeg1 ++
      escapeHtml (jsOrStr (pageConfig.meta.bind PageMeta.title) "Page Constructor Builder") ++
      htmlSeg2 ++ escapeHtml (jsOrStr (pageConfig.meta.bind PageMeta.description) "") ++
      htmlSeg3 ++
      (if jsOrStr config.baseUrl "/" ≠ "/" then
        "<base href=\"" ++ jsOrStr config.baseUrl "/" ++ "\">" else "") ++
      htmlSeg4 ++ generateFaviconTags config ++ htmlSeg5)
    (htmlSeg6 ++ cssLinkTags css ++ htmlSeg7 ++ cssLinkTags (pageConfig.css.getD []) ++
      htmlSeg8)
    ?_
  simp [htmlHeadOf, String.append_assoc]

/-- The title element with the HTML-escaped page title occurs in the head. -/
theorem title_escaped_infix_head (config : BuilderConfig) (pageConfig : PageConfig)
    (css : List String) :
    strInfix ("<title>" ++
        escapeHtml (jsOrStr (pageConfig.meta.bind PageMeta.title) "Page Constructor Builder") ++
        "</title>")
      (htmlHeadOf config pageConfig css) := by
  refine strInfix_of_eq
    (htmlSeg0 ++ jsOrStr config.theme "light" ++
      "\">\n<head>\n    <meta charset=\"UTF-8\">\n    <meta name=\"viewport\" content=\"width=device-width, initial-scale=1.0\">\n    ")
    ("\n    <meta name=\"description\" content=\"" ++
      escapeHtml (jsOrStr (pageConfig.meta.bind PageMeta.description) "") ++
      htmlSeg3 ++
      (if jsOrStr config.baseUrl "/" ≠ "/" then
        "<base href=\"" ++ jsOrStr config.baseUrl "/" ++ "\">" else "") ++
      htmlSeg4 ++ generateFaviconTags config ++ htmlSeg5 ++ generateMetaTags pageConfig ++
      htmlSeg6 ++ cssLinkTags css ++ htmlSeg7 ++ cssLinkTags (pageConfig.css.getD []) ++
      htmlSeg8)
    ?_
  simp only [htmlHeadOf,
    show htmlSeg1 =
      "\">\n<head>\n    <meta charset=\"UTF-8\">\n    <meta name=\"viewport\" content=\"width=device-width, initial-scale=1.0\">\n    " ++
      "<title>" from rfl,
    show htmlSeg2 = "</title>" ++ "\n    <meta name=\"description\" content=\"" from rfl,
    String.append_assoc]

/-- The description meta tag with the HTML-escaped description occurs in the
head. -/
theorem description_escaped_infix_head (config : BuilderConfig) (pageConfig : PageConfig)
    (css : List String) :
    strInfix ("<meta name=\"description\" content=\"" ++
        escapeHtml (jsOrStr (pageConfig.meta.bind PageMeta.description) "") ++ "\">")
      (htmlHeadOf config pageConfig css) := by
  refine strInfix_of_eq
    (htmlSeg0 ++ jsOrStr config.theme "light" ++ htmlSeg1 ++
      escapeHtml (jsOrStr (pageConfig.meta.bind PageMeta.title) "Page Constructor Builder") ++
      "</title>\n    ")
    ("\n    " ++
      (if jsOrStr config.baseUrl "/" ≠ "/" then
        "<base href=\"" ++ jsOrStr config.baseUrl "/" ++ "\">" else "") ++
      htmlSeg4 ++ generateFaviconTags config ++ htmlSeg5 ++ generateMetaTags pageConfig ++
      htmlSeg6 ++ cssLinkTags css ++ htmlSeg7 ++ cssLinkTags (pageConfig.css.getD []) ++
      htmlSeg8)
    ?_
  simp only [htmlHeadOf,
    show htmlSeg2 = "</title>\n    " ++ "<meta name=\"description\" content=\"" from rfl,
    show htmlSeg3 = "\">" ++ "\n    " from rfl,
    String.append_assoc]

/-- The Open Graph title tag carries the HTML-escaped sharing title. -/
theorem ogtitle_escaped_infix (pageConfig : PageConfig) (m : PageMeta) (sh : SharingMeta)
    (t : String) (hm : pageConfig.meta = some m) (hsh : m.sharing = some sh)
    (hti : sh.title = some t) (ht : t.data.isEmpty = false) :
    strInfix ("<meta property=\"og:title\" content=\"" ++ escapeHtml t ++ "\">")
      (generateMetaTags pageConfig) := by
  unfold generateMetaTags
  rw [hm]
  have hst : m.sharing.bind SharingMeta.title = some t := by rw [hsh]; simp [hti]
  apply joinStrings_mem_infix
  simp [hst, jsTruthy, ht]

/-- The Open Graph description tag carries the HTML-escaped sharing
description. -/
theorem ogdescription_escaped_infix (pageConfig : PageConfig) (m : PageMeta)
    (sh : SharingMeta) (d : String) (hm : pageConfig.meta = some m)
    (hsh : m.sharing = some sh) (hde : sh.description = some d)
    (hd : d.data.isEmpty = false) :
    strInfix ("<meta property=\"og:description\" content=\"" ++ escapeHtml d ++ "\">")
      (generateMetaTags pageConfig) := by
  unfold generateMetaTags
  rw [hm]
  have hsd : m.sharing.bind SharingMeta.description = some d := by rw [hsh]; simp [hde]
  apply joinStrings_mem_infix
  simp [hsd, jsTruthy, hd]

/-- The Open Graph image tag carries the HTML-escaped sharing image. -/
theorem ogimage_escaped_infix (pageConfig : PageConfig) (m : PageMeta)
    (sh : SharingMeta) (i : String) (hm : pageConfig.meta = some m)
    (hsh : m.sharing = some sh) (him : sh.image = some i)
    (hi : i.data.isEmpty = false) :
    strInfix ("<meta property=\"og:image\" content=\"" ++ escapeHtml i ++ "\">")
      (generateMetaTags pageConfig) := by
  unfold generateMetaTags
  rw [hm]
  have hsi : m.sharing.bind SharingMeta.image = some i := by rw [hsh]; simp [him]
  apply joinStrings_mem_infix
  simp [hsi, jsTruthy, hi]

/-- The Twitter Card title tag carries the HTML-escaped sharing title. -/
theorem twittertitle_escaped_infix (pageConfig : PageConfig) (m : PageMeta)
    (sh : SharingMeta) (t : String) (hm : pageConfig.meta = some m)
    (hsh : m.sharing = some sh) (hti : sh.title = some t)
    (ht : t.data.isEmpty = false) :
    strInfix ("<meta name=\"twitter:title\" content=\"" ++ escapeHtml t ++ "\">")
      (generateMetaTags pageConfig) := by
  unfold generateMetaTags
  rw [hm]
  have hst : m.sharing.bind SharingMeta.title = some t := by rw [hsh]; simp [hti]
  apply joinStrings_mem_infix
  simp [hst, jsTruthy, ht]

/-- The Twitter Card description tag carries the HTML-escaped sharing
description. -/
theorem twitterdescription_escaped_infix (pageConfig : PageConfig) (m : PageMeta)
    (sh : SharingMeta) (d : String) (hm : pageConfig.meta = some m)
    (hsh : m.sharing = some sh) (hde : sh.description = some d)
    (hd : d.data.isEmpty = false) :
    strInfix ("<meta name=\"twitter:description\" content=\"" ++ escapeHtml d ++ "\">")
      (generateMetaTags pageConfig) := by
  unfold generateMetaTags
  rw [hm]
  have hsd : m.sharing.bind SharingMeta.description = some d := by rw [hsh]; simp [hde]
  apply joinStrings_mem_infix
  simp [hsd, jsTruthy, hd]

/-- The Twitter Card image tag carries the HTML-escaped sharing image
(emitted when the Twitter block is active, i.e. a sharing title or
description is present). -/
theorem twitterimage_escaped_infix (pageConfig : PageConfig) (m : PageMeta)
    (sh : SharingMeta) (i : String) (hm : pageConfig.meta = some m)
    (hsh : m.sharing = some sh) (him : sh.image = some i)
    (hi : i.data.isEmpty = false)
    (hor : (jsTruthy sh.title || jsTruthy sh.description) = true) :
    strInfix ("<meta name=\"twitter:image\" content=\"" ++ escapeHtml i ++ "\">")
      (generateMetaTags pageConfig) := by
  unfold generateMetaTags
  rw [hm]
  have hsi : m.sharing.bind SharingMeta.image = some i := by rw [hsh]; simp [him]
  have hcond : (jsTruthy (m.sharing.bind SharingMeta.title) ||
      jsTruthy (m.sharing.bind SharingMeta.description)) = true := by
    rw [hsh]
    simpa using hor
  have hcases : jsTruthy (m.sharing.bind SharingMeta.title) = true ∨
      jsTruthy (m.sharing.bind SharingMeta.description) = true := by
    simpa using hcond
  apply joinStrings_mem_infix
  simp [hsi, jsTruthy, hi, hcond]
  unfold jsTruthy at hcases
  tauto

/-- The keywords meta tag interpolates the joined keywords verbatim (no
escaping). -/
theorem keywords_verbatim_infix (pageConfig : PageConfig) (m : PageMeta)
    (kws : List String) (hm : pageConfig.meta = some m) (hk : m.keywords = some kws)
    (hlen : 0 < kws.length) :
    strInfix ("<meta name=\"keywords\" content=\"" ++ joinStrings ", " kws ++ "\">")
      (generateMetaTags pageConfig) := by
  unfold generateMetaTags
  rw [hm]
  apply joinStrings_mem_infix
  refine List.mem_append_right _ ?_
  simp [hk, hlen]

/-- C4 counterexample: keywords are interpolated into the assembled document
without HTML escaping — the raw `<` of a keyword appears in an attribute
position, where the escaped form would have been `&lt;`. -/
theorem c4_keywords_unescaped_cex :
    generateMetaTags pcEvil = "<meta name=\"keywords\" content=\"<evil>\">" ∧
    strInfix "content=\"<evil>\""
      (generateHTML cfgW collabW pcEvil none (some "<div>x</div>") [] none) ∧
    escapeHtml "<evil>" = "&lt;evil&gt;" ∧
    ¬ strInfix "&lt;" (generateMetaTags pcEvil) := by
  refine ⟨by decide, ?_, by decide, by decide⟩
  have h1 : strInfix "content=\"<evil>\"" (generateMetaTags pcEvil) := by decide
  exact strInfix_trans h1
    (strInfix_head_doc cfgW collabW pcEvil none (some "<div>x</div>") [] none
      (generateMetaTags_infix_head cfgW pcEvil []))

/-- C4 (amended): HTML escaping is applied to the title, description, every
sharing field (the Open Graph title, description and image tags and the
Twitter Card title, description and image tags) and the favicon href —
escaped output contains no raw `<`, `>`, quote or apostrophe — but the
keywords meta tag interpolates its content verbatim, without escaping. -/
theorem c4_escaping_scope :
    (∀ s : String, ∀ c ∈ (escapeHtml s).data,
        c ≠ '<' ∧ c ≠ '>' ∧ c ≠ Char.ofNat 34 ∧ c ≠ Char.ofNat 39) ∧
    (∀ (config : BuilderConfig) (collab : Collab) (pageConfig : PageConfig)
        (navigation : Option NavigationData) (pre : Option String)
        (css : List String) (an : Option AnalyticsContextProps),
      strInfix ("<title>" ++
          escapeHtml (jsOrStr (pageConfig.meta.bind PageMeta.title)
            "Page Constructor Builder") ++ "</title>")
        (generateHTML config collab pageConfig navigation pre css an) ∧
      strInfix ("<meta name=\"description\" content=\"" ++
          escapeHtml (jsOrStr (pageConfig.meta.bind PageMeta.description) "") ++ "\">")
        (generateHTML config collab pageConfig navigation pre css an)) ∧
    (∀ (pageConfig : PageConfig) (m : PageMeta) (sh : SharingMeta) (t : String),
      pageConfig.meta = some m → m.sharing = some sh → sh.title = some t →
      t.data.isEmpty = false →
      strInfix ("<meta property=\"og:title\" content=\"" ++ escapeHtml t ++ "\">")
        (generateMetaTags pageConfig)) ∧
    (∀ (pageConfig : PageConfig) (m : PageMeta) (sh : SharingMeta) (d : String),
      pageConfig.meta = some m → m.sharing = some sh → sh.description = some d →
      d.data.isEmpty = false →
      strInfix ("<meta property=\"og:description\" content=\"" ++ escapeHtml d ++ "\">")
        (generateMetaTags pageConfig)) ∧
    (∀ (pageConfig : PageConfig) (m : PageMeta) (sh : SharingMeta) (i : String),
      pageConfig.meta = some m → m.sharing = some sh → sh.image = some i →
      i.data.isEmpty = false →
      strInfix ("<meta property=\"og:image\" content=\"" ++ escapeHtml i ++ "\">")
        (generateMetaTags pageConfig)) ∧
    (∀ (pageConfig : PageConfig) (m : PageMeta) (sh : SharingMeta) (t : String),
      pageConfig.meta = some m → m.sharing = some sh → sh.title = some t →
      t.data.isEmpty = false →
      strInfix ("<meta name=\"twitter:title\" content=\"" ++ escapeHtml t ++ "\">")
        (generateMetaTags pageConfig)) ∧
    (∀ (pageConfig : PageConfig) (m : PageMeta) (sh : SharingMeta) (d : String),
      pageConfig.meta = some m → m.sharing = some sh → sh.description = some d →
      d.data.isEmpty = false →
      strInfix ("<meta name=\"twitter:description\" content=\"" ++ escapeHtml d ++ "\">")
        (generateMetaTags pageConfig)) ∧
    (∀ (pageConfig : PageConfig) (m : PageMeta) (sh : SharingMeta) (i : String),
      pageConfig.meta = some m → m.sharing = some sh → sh.image = some i →
      i.data.isEmpty = false →
      (jsTruthy sh.title || jsTruthy sh.description) = true →
      strInfix ("<meta name=\"twitter:image\" content=\"" ++ escapeHtml i ++ "\">")
        (generateMetaTags pageConfig)) ∧
    (∀ (config : BuilderConfig) (fav : String), config.favicon = some fav →
      (jsStartsWith fav "http://" || jsStartsWith fav "https://") = true →
      generateFaviconTags config = "<link rel=\"icon\" href=\"" ++ escapeHtml fav ++ "\">") ∧
    (∀ (pageConfig : PageConfig) (m : PageMeta) (kws : List String),
      pageConfig.meta = some m → m.keywords = some kws → 0 < kws.length →
      strInfix ("<meta name=\"keywords\" content=\"" ++ joinStrings ", " kws ++ "\">")
        (generateMetaTags pageConfig)) := by
  refine ⟨escapeHtml_no_raw, ?_, ogtitle_escaped_infix, ogdescription_escaped_infix,
    ogimage_escaped_infix, twittertitle_escaped_infix, twitterdescription_escaped_infix,
    twitterimage_escaped_infix, generateFaviconTags_url, keywords_verbatim_infix⟩
  intro config collab pageConfig navigation pre css an
  exact ⟨strInfix_head_doc config collab pageConfig navigation pre css an
      (title_escaped_infix_head config pageConfig css),
    strInfix_head_doc config collab pageConfig navigation pre css an
      (description_escaped_infix_head config pageConfig css)⟩

/-- Witness for C4 (amended) at concrete pages, sharing metadata, favicon and
keywords. -/
theorem c4_escaping_scope_witness :
    ('a' ∈ (escapeHtml "a").data →
      ('a' ≠ '<' ∧ 'a' ≠ '>' ∧ 'a' ≠ Char.ofNat 34 ∧ 'a' ≠ Char.ofNat 39)) ∧
    strInfix ("<title>" ++
        escapeHtml (jsOrStr (pcHome.meta.bind PageMeta.title) "Page Constructor Builder") ++
        "</title>")
      (generateHTML cfgW collabW pcHome none none [] none) ∧
    strInfix ("<meta property=\"og:title\" content=\"" ++ escapeHtml "Hello & Co" ++ "\">")
      (generateMetaTags pcShare) ∧
    strInfix ("<meta property=\"og:description\" content=\"" ++
        escapeHtml "A <b> shop" ++ "\">")
      (generateMetaTags pcShareFull) ∧
    strInfix ("<meta property=\"og:image\" content=\"" ++
        escapeHtml "https://img.example.com/x.png?a=1&b=2" ++ "\">")
      (generateMetaTags pcShareFull) ∧
    strInfix ("<meta name=\"twitter:title\" content=\"" ++ escapeHtml "Hello & Co" ++ "\">")
      (generateMetaTags pcShareFull) ∧
    strInfix ("<meta name=\"twitter:description\" content=\"" ++
        escapeHtml "A <b> shop" ++ "\">")
      (generateMetaTags pcShareFull) ∧
    strInfix ("<meta name=\"twitter:image\" content=\"" ++
        escapeHtml "https://img.example.com/x.png?a=1&b=2" ++ "\">")
      (generateMetaTags pcShareFull) ∧
    generateFaviconTags cfgUrlFav =
      "<link rel=\"icon\" href=\"" ++ escapeHtml "https://example.com/icon.png" ++ "\">" ∧
    strInfix ("<meta name=\"keywords\" content=\"" ++ joinStrings ", " ["<evil>"] ++ "\">")
      (generateMetaTags pcEvil) := by
  refine ⟨fun h => c4_escaping_scope.1 "a" 'a' h,
    (c4_escaping_scope.2.1 cfgW collabW pcHome none none [] none).1,
    c4_escaping_scope.2.2.1 _ _ _ "Hello & Co" rfl rfl rfl rfl,
    c4_escaping_scope.2.2.2.1 pcShareFull _ _ "A <b> shop" rfl rfl rfl rfl,
    c4_escaping_scope.2.2.2.2.1 pcShareFull _ _
      "https://img.example.com/x.png?a=1&b=2" rfl rfl rfl rfl,
    c4_escaping_scope.2.2.2.2.2.1 pcShareFull _ _ "Hello & Co" rfl rfl rfl rfl,
    c4_escaping_scope.2.2.2.2.2.2.1 pcShareFull _ _ "A <b> shop" rfl rfl rfl rfl,
    c4_escaping_scope.2.2.2.2.2.2.2.1 pcShareFull _ _
      "https://img.example.com/x.png?a=1&b=2" rfl rfl rfl rfl (by decide),
    c4_escaping_scope.2.2.2.2.2.2.2.2.1 cfgUrlFav "https://example.com/icon.png" rfl
      (by decide),
    c4_escaping_scope.2.2.2.2.2.2.2.2.2 pcEvil _ ["<evil>"] rfl rfl (by decide)⟩

/-- C1: when the loaded server-bundle render function throws for a page, the
error is not propagated: `renderToHTML` returns the fallback fragment, which
contains the literal substring "Server-Side Rendering Error" and the thrown
message; the assembled document still contains the root container holding
exactly that fragment; and the page still succeeds and is counted in
`pagesBuilt`. -/
theorem c1_ssr_error_fallback (config : BuilderConfig) (collab : Collab) (env : BuildEnv)
    (yamlFile : String) (pageConfig : PageConfig) (navigation : Option NavigationData)
    (msg : String)
    (hthrow : env.renderPage (transformPageContent env.transformer pageConfig)
      (jsOrStr config.theme "light") navigation none = Except.error msg)
    (hbundle : env.serverBundleExists = true)
    (hparse : env.parsePage yamlFile = Except.ok pageConfig)
    (hnav : env.navLoad = Except.ok navigation)
    (hwrite : env.writePage yamlFile = Except.ok ()) :
    renderToHTML env.renderPage config (transformPageContent env.transformer pageConfig)
      navigation none = ssrFallbackHTML msg ∧
    strInfix "Server-Side Rendering Error" (ssrFallbackHTML msg) ∧
    strInfix msg (ssrFallbackHTML msg) ∧
    templateRender config collab env.transformer env.renderPage env.serverBundleExists
      pageConfig navigation env.generatedCSS none =
      Except.ok (generateHTML config collab
        (transformPageContent env.transformer pageConfig) navigation
        (some (ssrFallbackHTML msg)) env.generatedCSS none) ∧
    strInfix (rootOpenTag ++ ssrFallbackHTML msg ++ rootCloseTag)
      (generateHTML config collab (transformPageContent env.transformer pageConfig)
        navigation (some (ssrFallbackHTML msg)) env.generatedCSS none) ∧
    buildPage config collab env yamlFile = Except.ok () ∧
    (∀ result : BuildResult,
      (processPages config collab env [yamlFile] result).pagesBuilt =
        result.pagesBuilt + 1) := by
  have hrender : renderToHTML env.renderPage config
      (transformPageContent env.transformer pageConfig) navigation none =
      ssrFallbackHTML msg := by
    unfold renderToHTML
    rw [hthrow]
  have htpl : templateRender config collab env.transformer env.renderPage
      env.serverBundleExists pageConfig navigation env.generatedCSS none =
      Except.ok (generateHTML config collab
        (transformPageContent env.transformer pageConfig) navigation
        (some (ssrFallbackHTML msg)) env.generatedCSS none) := by
    unfold templateRender
    rw [hbundle]
    simp [hrender]
  have hbuildPage : buildPage config collab env yamlFile = Except.ok () := by
    simp only [buildPage, hparse, hnav, htpl, hwrite]
  refine ⟨hrender, ?_, ?_, htpl, ?_, hbuildPage, ?_⟩
  · exact strInfix_of_eq ssrFallbackPre (ssrFallbackMid ++ msg ++ ssrFallbackPost)
      (by simp [ssrFallbackHTML, String.append_assoc])
  · exact strInfix_of_eq (ssrFallbackPre ++ "Server-Side Rendering Error" ++ ssrFallbackMid)
      ssrFallbackPost (by simp [ssrFallbackHTML, String.append_assoc])
  · exact strInfix_of_eq
      (htmlHeadOf config (transformPageContent env.transformer pageConfig) env.generatedCSS)
      (htmlTailOf config collab (transformPageContent env.transformer pageConfig)
        navigation none)
      (by simp only [generateHTML, rootContentOf_fallback])
  · intro result
    simp [processPages, hbuildPage]

/-- Witness for C1 at the environment whose render function always throws. -/
theorem c1_ssr_error_fallback_witness :
    renderToHTML envC1.renderPage cfgW (transformPageContent envC1.transformer pcHome)
      none none = ssrFallbackHTML "boom" ∧
    strInfix "Server-Side Rendering Error" (ssrFallbackHTML "boom") ∧
    buildPage cfgW collabW envC1 "home.yaml" = Except.ok () ∧
    (∀ result : BuildResult,
      (processPages cfgW collabW envC1 ["home.yaml"] result).pagesBuilt =
        result.pagesBuilt + 1) := by
  have h := c1_ssr_error_fallback cfgW collabW envC1 "home.yaml" pcHome none "boom"
    rfl rfl rfl rfl rfl
  exact ⟨h.1, h.2.1, h.2.2.2.2.2.1, h.2.2.2.2.2.2⟩

/-- Witness for C7 with a failing server-target webpack run. -/
theorem c7_entry_files_removed_witness :
    (webpackBuild
      { writeClientEntry := Except.ok (), writeServerEntry := Except.ok (),
        runClient := Except.ok (),
        runServer := Except.error "Webpack compilation errors:\nModule not found" }).clientEntryOnDisk = false ∧
    (webpackBuild
      { writeClientEntry := Except.ok (), writeServerEntry := Except.ok (),
        runClient := Except.ok (),
        runServer := Except.error "Webpack compilation errors:\nModule not found" }).serverEntryOnDisk = false :=
  c7_entry_files_removed _ rfl rfl

end PCB
